import Mathlib

/-!
Verification of the FitForge analytics engine: the nutrition derivation
pipeline (nutritionService.ts) and the dashboard statistics aggregation
(authService.ts), embedded shallowly with JavaScript numbers as rationals
and JavaScript Math.round as the floor of x + 1/2.
-/

/-- JavaScript Math.round: rounds half towards positive infinity. -/
def mathRound (q : ℚ) : ℤ := ⌊q + 1/2⌋

/-- Biological sex as in the source union type. -/
inductive Gender
  | male
  | female
deriving DecidableEq

/-- Activity level as in the source union type. -/
inductive ActivityLevel
  | sedentary
  | light
  | moderate
  | active
  | veryActive
deriving DecidableEq

/-- Goal as in the source union type. -/
inductive Goal
  | lose
  | maintain
  | gain
deriving DecidableEq

/-- Activity multipliers table from NutritionService.calculateTDEE. -/
def activityMultiplier : ActivityLevel → ℚ
  | .sedentary => 1.2
  | .light => 1.375
  | .moderate => 1.55
  | .active => 1.725
  | .veryActive => 1.9

/-- NutritionService.calculateTDEE: Mifflin-St Jeor BMR scaled by the
activity multiplier, rounded with Math.round. -/
def calculateTDEE (weight height age : ℚ) (gender : Gender)
    (activityLevel : ActivityLevel) : ℚ :=
  let bmr : ℚ :=
    if gender = Gender.male then
      10 * weight + 6.25 * height - 5 * age + 5
    else
      10 * weight + 6.25 * height - 5 * age - 161
  ((mathRound (bmr * activityMultiplier activityLevel) : ℤ) : ℚ)

/-- MacroGoals record from types/nutrition.ts. -/
structure MacroGoals where
  calories : ℚ
  protein : ℚ
  carbs : ℚ
  fats : ℚ
deriving DecidableEq

/-- NutritionService.calculateMacros: goal-dependent percentage split,
grams rounded with Math.round. -/
def calculateMacros (calories : ℚ) (goal : Goal) : MacroGoals :=
  let proteinPercent : ℚ :=
    match goal with
    | .lose => 0.35
    | .gain => 0.25
    | .maintain => 0.30
  let fatPercent : ℚ :=
    match goal with
    | .lose => 0.30
    | .gain => 0.25
    | .maintain => 0.30
  let carbPercent : ℚ :=
    match goal with
    | .lose => 0.35
    | .gain => 0.50
    | .maintain => 0.40
  { calories := calories
    protein := ((mathRound ((calories * proteinPercent) / 4) : ℤ) : ℚ)
    carbs := ((mathRound ((calories * carbPercent) / 4) : ℤ) : ℚ)
    fats := ((mathRound ((calories * fatPercent) / 9) : ℤ) : ℚ) }

/-- NutritionService.calculateTargetCalories: goal-dependent adjustment. -/
def calculateTargetCalories (tdee : ℚ) (goal : Goal) : ℚ :=
  match goal with
  | .lose => max 1200 (tdee - 500)
  | .gain => tdee + 400
  | .maintain => tdee

/-- NutritionProfile record from types/nutrition.ts. -/
structure NutritionProfile where
  userId : String
  tdee : ℚ
  bmr : ℚ
  goal : Goal
  target_calories : ℚ
  macro_goals : MacroGoals
  dietary_restrictions : List String
  allergies : List String
  preferences : List String
  meal_timing : List String
deriving DecidableEq

/-- NutritionService.createNutritionProfile: the full derivation pipeline.
The source performs no input validation and has no error path. -/
def createNutritionProfile (userId : String) (weight height age : ℚ)
    (gender : Gender) (activityLevel : ActivityLevel) (goal : Goal)
    (dietaryRestrictions : List String) (allergies : List String) :
    NutritionProfile :=
  let tdee := calculateTDEE weight height age gender activityLevel
  let bmr : ℚ :=
    if gender = Gender.male then
      10 * weight + 6.25 * height - 5 * age + 5
    else
      10 * weight + 6.25 * height - 5 * age - 161
  let targetCalories := calculateTargetCalories tdee goal
  let macroGoals := calculateMacros targetCalories goal
  { userId := userId
    tdee := tdee
    bmr := ((mathRound bmr : ℤ) : ℚ)
    goal := goal
    target_calories := targetCalories
    macro_goals := macroGoals
    dietary_restrictions := dietaryRestrictions
    allergies := allergies
    preferences := []
    meal_timing := ["breakfast", "lunch", "dinner", "snack"] }

/-- NutritionService.validateNutritionGoals: three independent checks,
each appending one advisory warning string; never fails. -/
def validateNutritionGoals (profile : NutritionProfile) : Bool × List String :=
  let warnings : List String :=
    (if profile.target_calories < 1200 then
      ["Calorie target may be too low for safe weight loss"]
    else []) ++
    (if (profile.macro_goals.protein * 4 / profile.target_calories) * 100 < 15 then
      ["Protein intake may be insufficient for muscle maintenance"]
    else []) ++
    (if (profile.macro_goals.fats * 9 / profile.target_calories) * 100 < 20 then
      ["Fat intake may be too low for hormone production and nutrient absorption"]
    else [])
  (warnings.isEmpty, warnings)

/-! Dashboard statistics from authService.ts getUserDashboardStats.
Workout sessions and the reference instant are millisecond timestamps. -/

/-- Milliseconds per day. -/
def msPerDay : ℤ := 86400000

/-- Calendar day index of a timestamp (the setHours(0,0,0,0) truncation). -/
def dayOf (t : ℤ) : ℤ := t / msPerDay

/-- The sort in getUserDashboardStats: sessions by date descending. -/
def sortByDateDesc (sessions : List ℤ) : List ℤ :=
  List.insertionSort (fun a b => b ≤ a) sessions

/-- The streak loop body: walk the date-descending list with a cursor day,
counting a match, stopping at a strictly earlier day, skipping later days. -/
def streakWalk : List ℤ → ℤ → ℕ
  | [], _ => 0
  | s :: rest, cursor =>
    if dayOf s = cursor then streakWalk rest (cursor - 1) + 1
    else if dayOf s < cursor then 0
    else streakWalk rest cursor

/-- Workout streak of getUserDashboardStats as of a reference timestamp. -/
def workoutStreak (sessions : List ℤ) (asOf : ℤ) : ℕ :=
  streakWalk (sortByDateDesc sessions) (dayOf asOf)

/-- Start of the trailing 7-day window. -/
def oneWeekAgo (asOf : ℤ) : ℤ := asOf - 7 * msPerDay

/-- Sessions falling in the trailing 7-day window. -/
def thisWeekCount (sessions : List ℤ) (asOf : ℤ) : ℕ :=
  (sessions.filter (fun d => oneWeekAgo asOf ≤ d)).length

/-- The fixed weekly workout target of getUserDashboardStats. -/
def weeklyGoal : ℕ := 4

/-- Weekly goal progress: percentage of the weekly target, capped at 100. -/
def weeklyGoalProgress (sessions : List ℤ) (asOf : ℤ) : ℚ :=
  min (((thisWeekCount sessions asOf : ℚ) / (weeklyGoal : ℚ)) * 100) 100

/-- Progress metric sample: date and optional weight, as in ProgressMetrics. -/
structure MetricSample where
  date : ℤ
  weight : Option ℚ
deriving DecidableEq

/-- getLatestProgressMetrics: the sample with the latest date (the Firestore
query orders by date descending and takes the first document). -/
def getLatestProgressMetrics (metrics : List MetricSample) : Option MetricSample :=
  (List.insertionSort (fun a b : MetricSample => b.date ≤ a.date) metrics).head?

/-- recentWeight of getUserDashboardStats: the weight field of the latest
sample, absent when there is no sample or the latest sample has no weight. -/
def recentWeight (metrics : List MetricSample) : Option ℚ :=
  (getLatestProgressMetrics metrics).bind MetricSample.weight

/-- Stated from the spec for comparison with the source: the weight of the
metric sample with the latest date among those having a non-null weight. -/
def specMostRecentWeight (metrics : List MetricSample) : Option ℚ :=
  ((List.insertionSort (fun a b : MetricSample => b.date ≤ a.date)
    (metrics.filter (fun m => m.weight.isSome))).head?).bind MetricSample.weight

instance : IsTotal ℤ (fun a b => b ≤ a) := ⟨fun a b => le_total b a⟩

instance : IsTrans ℤ (fun a b => b ≤ a) := ⟨fun _ _ _ h1 h2 => le_trans h2 h1⟩

instance : IsTotal MetricSample (fun a b => b.date ≤ a.date) :=
  ⟨fun a b => le_total b.date a.date⟩

instance : IsTrans MetricSample (fun a b => b.date ≤ a.date) :=
  ⟨fun _ _ _ h1 h2 => le_trans h2 h1⟩

instance : DecidableRel (fun (a b : MetricSample) => b.date ≤ a.date) :=
  fun a b => Int.decLe b.date a.date

/-- C5: calculateTargetCalories returns max(1200, tdee − 500) for lose,
tdee + 400 for gain, tdee unchanged for maintain, and 1200 at tdee = 1500
with goal lose. -/
theorem calculateTargetCalories_spec (tdee : ℚ) :
    calculateTargetCalories tdee Goal.lose = max 1200 (tdee - 500) ∧
    calculateTargetCalories tdee Goal.gain = tdee + 400 ∧
    calculateTargetCalories tdee Goal.maintain = tdee ∧
    calculateTargetCalories 1500 Goal.lose = 1200 := by
  refine ⟨rfl, rfl, rfl, ?_⟩
  show max 1200 ((1500 : ℚ) - 500) = 1200
  norm_num

/-- C10: the calories field of calculateMacros is the calorie argument
unchanged, so macro_goals.calories equals target_calories in every profile
built by createNutritionProfile. -/
theorem macros_calories_passthrough :
    (∀ (calories : ℚ) (goal : Goal),
      (calculateMacros calories goal).calories = calories) ∧
    (∀ (uid : String) (w h a : ℚ) (g : Gender) (act : ActivityLevel)
      (goal : Goal) (dr al : List String),
      (createNutritionProfile uid w h a g act goal dr al).macro_goals.calories =
        (createNutritionProfile uid w h a g act goal dr al).target_calories) := by
  exact ⟨fun _ _ => rfl, fun _ _ _ _ _ _ _ _ _ => rfl⟩

/-- C9: for male, weight 70, height 175, age 30, moderate activity, the
BMR of the Mifflin-St Jeor formula rounds to 1649 and the TDEE is 2556. -/
theorem tdee_example_male_moderate :
    calculateTDEE 70 175 30 Gender.male ActivityLevel.moderate = 2556 ∧
    ∀ goal : Goal,
      (createNutritionProfile "u" 70 175 30 Gender.male ActivityLevel.moderate
        goal [] []).bmr = 1649 := by
  constructor
  · norm_num [calculateTDEE, activityMultiplier, mathRound]
  · intro goal
    simp only [createNutritionProfile]
    norm_num [mathRound]

/-- C1 counterexample: at weight −1 (non-positive), createNutritionProfile
does not fail: it returns a fully populated profile. The source has no
input validation and no InvalidInputError. -/
theorem createNutritionProfile_accepts_nonpositive_weight :
    createNutritionProfile "u" (-1) 175 30 Gender.male ActivityLevel.moderate
      Goal.lose [] [] =
    { userId := "u", tdee := 1455, bmr := 939, goal := Goal.lose,
      target_calories := 1200,
      macro_goals := { calories := 1200, protein := 105, carbs := 105, fats := 40 },
      dietary_restrictions := [], allergies := [], preferences := [],
      meal_timing := ["breakfast", "lunch", "dinner", "snack"] } := by
  simp only [createNutritionProfile, calculateTDEE, calculateTargetCalories,
    calculateMacros, activityMultiplier]
  norm_num [mathRound]

/-- C1 amended: createNutritionProfile is total and performs no input
validation: for every input, including non-positive weight, height or age,
it returns the profile assembled from the TDEE, target-calorie and macro
computations, and there is no error path. -/
theorem createNutritionProfile_total (uid : String) (w h a : ℚ) (g : Gender)
    (act : ActivityLevel) (goal : Goal) (dr al : List String) :
    (createNutritionProfile uid w h a g act goal dr al).target_calories =
      calculateTargetCalories (calculateTDEE w h a g act) goal ∧
    (createNutritionProfile uid w h a g act goal dr al).macro_goals =
      calculateMacros (calculateTargetCalories (calculateTDEE w h a g act) goal) goal ∧
    (createNutritionProfile uid w h a g act goal dr al).userId = uid :=
  ⟨rfl, rfl, rfl⟩

/-- C2 counterexample: a maintain-goal profile derived for a small person
has target_calories 437, below 1200: the floor applies only to lose. -/
theorem maintain_target_below_floor :
    (createNutritionProfile "u" 30 100 80 Gender.female ActivityLevel.sedentary
      Goal.maintain [] []).target_calories = 437 ∧ (437 : ℚ) < 1200 := by
  constructor
  · simp only [createNutritionProfile, calculateTDEE, calculateTargetCalories,
      activityMultiplier, reduceCtorEq, if_false]
    norm_num [mathRound]
  · norm_num

/-- C2 amended: the 1200-kcal floor holds for goal lose; for maintain the
target equals the tdee and for gain it equals tdee + 400, either of which
may fall below 1200. -/
theorem target_floor_only_for_lose (uid : String) (w h a : ℚ) (g : Gender)
    (act : ActivityLevel) (dr al : List String) :
    1200 ≤ (createNutritionProfile uid w h a g act Goal.lose dr al).target_calories ∧
    (createNutritionProfile uid w h a g act Goal.maintain dr al).target_calories =
      (createNutritionProfile uid w h a g act Goal.maintain dr al).tdee ∧
    (createNutritionProfile uid w h a g act Goal.gain dr al).target_calories =
      (createNutritionProfile uid w h a g act Goal.gain dr al).tdee + 400 := by
  refine ⟨?_, rfl, rfl⟩
  show (1200 : ℚ) ≤ max 1200 (calculateTDEE w h a g act - 500)
  exact le_max_left _ _

/-- C7: weekly goal progress equals the trailing-7-day session count over
the fixed target of 4, times 100, clamped to the interval from 0 to 100;
4 sessions give 100, 6 sessions clamp to 100, 0 sessions give 0. -/
theorem weeklyGoalProgress_spec :
    (∀ (sessions : List ℤ) (asOf : ℤ),
      weeklyGoalProgress sessions asOf =
        min ((thisWeekCount sessions asOf : ℚ) * 100 / 4) 100 ∧
      0 ≤ weeklyGoalProgress sessions asOf ∧
      weeklyGoalProgress sessions asOf ≤ 100) ∧
    weeklyGoalProgress [0, 0, 0, 0] 0 = 100 ∧
    weeklyGoalProgress [0, 0, 0, 0, 0, 0] 0 = 100 ∧
    weeklyGoalProgress [] 0 = 0 := by
  have hrw : ∀ (s : List ℤ) (t : ℤ), weeklyGoalProgress s t =
      min ((thisWeekCount s t : ℚ) * 100 / 4) 100 := by
    intro s t
    unfold weeklyGoalProgress weeklyGoal
    congr 1
    push_cast
    ring
  refine ⟨fun sessions asOf => ⟨hrw _ _, ?_, min_le_right _ _⟩, ?_, ?_, ?_⟩
  · rw [hrw]
    apply le_min
    · positivity
    · norm_num
  · rw [hrw]
    norm_num [thisWeekCount, oneWeekAgo, msPerDay, List.filter]
  · rw [hrw]
    norm_num [thisWeekCount, oneWeekAgo, msPerDay, List.filter]
  · rw [hrw]
    norm_num [thisWeekCount, oneWeekAgo, msPerDay, List.filter]

/-- C8: validateNutritionGoals is total and evaluates its three rules
independently: the calorie warning appears iff target_calories < 1200, the
protein warning iff protein·4 / target < 0.15, the fat warning iff
fats·9 / target < 0.20, and with no rule firing the list is empty. -/
theorem validateNutritionGoals_rules (p : NutritionProfile)
    (hpos : 0 < p.target_calories) :
    ("Calorie target may be too low for safe weight loss" ∈
        (validateNutritionGoals p).2 ↔ p.target_calories < 1200) ∧
    ("Protein intake may be insufficient for muscle maintenance" ∈
        (validateNutritionGoals p).2 ↔
      p.macro_goals.protein * 4 / p.target_calories < 0.15) ∧
    ("Fat intake may be too low for hormone production and nutrient absorption" ∈
        (validateNutritionGoals p).2 ↔
      p.macro_goals.fats * 9 / p.target_calories < 0.20) ∧
    (¬ p.target_calories < 1200 →
      ¬ p.macro_goals.protein * 4 / p.target_calories < 0.15 →
      ¬ p.macro_goals.fats * 9 / p.target_calories < 0.20 →
      (validateNutritionGoals p).2 = []) := by
  have h2 : (p.macro_goals.protein * 4 / p.target_calories) * 100 < 15 ↔
      p.macro_goals.protein * 4 / p.target_calories < 0.15 := by
    constructor <;> intro h <;> nlinarith
  have h3 : (p.macro_goals.fats * 9 / p.target_calories) * 100 < 20 ↔
      p.macro_goals.fats * 9 / p.target_calories < 0.20 := by
    constructor <;> intro h <;> nlinarith
  unfold validateNutritionGoals
  by_cases c1 : p.target_calories < 1200 <;>
    by_cases c2 : (p.macro_goals.protein * 4 / p.target_calories) * 100 < 15 <;>
      by_cases c3 : (p.macro_goals.fats * 9 / p.target_calories) * 100 < 20 <;>
        simp [c1, c2, c3, not_lt, ← h2, ← h3]

/-- A concrete profile used to witness validateNutritionGoals_rules:
target 2500 kcal, protein 200 g, fats 80 g. -/
def profileExample : NutritionProfile :=
  { userId := "u", tdee := 2500, bmr := 2000, goal := Goal.maintain,
    target_calories := 2500,
    macro_goals := { calories := 2500, protein := 200, carbs := 250, fats := 80 },
    dietary_restrictions := [], allergies := [], preferences := [],
    meal_timing := [] }

/-- Witness for validateNutritionGoals_rules at the concrete profile. -/
theorem validateNutritionGoals_rules_witness :
    ("Calorie target may be too low for safe weight loss" ∈
        (validateNutritionGoals profileExample).2 ↔
      profileExample.target_calories < 1200) ∧
    ("Protein intake may be insufficient for muscle maintenance" ∈
        (validateNutritionGoals profileExample).2 ↔
      profileExample.macro_goals.protein * 4 / profileExample.target_calories < 0.15) ∧
    ("Fat intake may be too low for hormone production and nutrient absorption" ∈
        (validateNutritionGoals profileExample).2 ↔
      profileExample.macro_goals.fats * 9 / profileExample.target_calories < 0.20) ∧
    (¬ profileExample.target_calories < 1200 →
      ¬ profileExample.macro_goals.protein * 4 / profileExample.target_calories < 0.15 →
      ¬ profileExample.macro_goals.fats * 9 / profileExample.target_calories < 0.20 →
      (validateNutritionGoals profileExample).2 = []) :=
  validateNutritionGoals_rules profileExample (by norm_num [profileExample])

/-- Math.round of an integer fraction as Euclidean integer division. -/
theorem mathRound_intCast_div (a : ℤ) (d : ℕ) (hd : 0 < d) :
    mathRound ((a : ℚ) / (d : ℚ)) = (2 * a + d) / (2 * (d : ℤ)) := by
  have hd0 : (d : ℚ) ≠ 0 := Nat.cast_ne_zero.mpr hd.ne'
  have key : (a : ℚ) / (d : ℚ) + 1/2 = ((2 * a + d : ℤ) : ℚ) / ((2 * d : ℕ) : ℚ) := by
    push_cast
    field_simp
    ring
  rw [mathRound, key, Rat.floor_intCast_div_natCast]
  push_cast
  ring_nf

/-- C4 counterexample: the pipeline input male, weight 100, height 100,
age 39.75, sedentary, goal lose yields target_calories 1218, whose macro
calorie sum misses the target by 7 kcal, more than the claimed 5. -/
theorem macro_sum_error_exceeds_five :
    (createNutritionProfile "u" 100 100 39.75 Gender.male ActivityLevel.sedentary
      Goal.lose [] []).target_calories = 1218 ∧
    |(createNutritionProfile "u" 100 100 39.75 Gender.male ActivityLevel.sedentary
        Goal.lose [] []).macro_goals.protein * 4 +
      (createNutritionProfile "u" 100 100 39.75 Gender.male ActivityLevel.sedentary
        Goal.lose [] []).macro_goals.carbs * 4 +
      (createNutritionProfile "u" 100 100 39.75 Gender.male ActivityLevel.sedentary
        Goal.lose [] []).macro_goals.fats * 9 -
      (createNutritionProfile "u" 100 100 39.75 Gender.male ActivityLevel.sedentary
        Goal.lose [] []).target_calories| = 7 ∧
    ¬ |(createNutritionProfile "u" 100 100 39.75 Gender.male ActivityLevel.sedentary
        Goal.lose [] []).macro_goals.protein * 4 +
      (createNutritionProfile "u" 100 100 39.75 Gender.male ActivityLevel.sedentary
        Goal.lose [] []).macro_goals.carbs * 4 +
      (createNutritionProfile "u" 100 100 39.75 Gender.male ActivityLevel.sedentary
        Goal.lose [] []).macro_goals.fats * 9 -
      (createNutritionProfile "u" 100 100 39.75 Gender.male ActivityLevel.sedentary
        Goal.lose [] []).target_calories| ≤ 5 := by
  simp only [createNutritionProfile, calculateTDEE, calculateTargetCalories,
    calculateMacros, activityMultiplier]
  norm_num [mathRound]

/-- C4 amended: for every integer calorie target and every goal, the macro
calorie sum protein·4 + carbs·4 + fats·9 is within 8 kcal of the target
(and 8 is attained, so 5 is not a valid tolerance). -/
theorem macro_sum_within_eight (cal : ℤ) (goal : Goal) :
    |(calculateMacros (cal : ℚ) goal).protein * 4 +
      (calculateMacros (cal : ℚ) goal).carbs * 4 +
      (calculateMacros (cal : ℚ) goal).fats * 9 - (cal : ℚ)| ≤ 8 := by
  cases goal with
  | lose =>
    have h1 : mathRound ((cal : ℚ) * 0.35 / 4) = (2 * (7 * cal) + 80) / 160 := by
      rw [show (cal : ℚ) * 0.35 / 4 = ((7 * cal : ℤ) : ℚ) / ((80 : ℕ) : ℚ) by
        rw [show (0.35 : ℚ) = 7/20 by norm_num]; push_cast; ring]
      rw [mathRound_intCast_div _ _ (by norm_num)]
      norm_num
    have h3 : mathRound ((cal : ℚ) * 0.30 / 9) = (2 * cal + 30) / 60 := by
      rw [show (cal : ℚ) * 0.30 / 9 = ((cal : ℤ) : ℚ) / ((30 : ℕ) : ℚ) by
        rw [show (0.30 : ℚ) = 3/10 by norm_num]; push_cast; ring]
      rw [mathRound_intCast_div _ _ (by norm_num)]
      norm_num
    simp only [calculateMacros]
    rw [h1, h3]
    have hcast : ((((2 * (7 * cal) + 80) / 160 : ℤ) : ℚ)) * 4 +
        ((((2 * (7 * cal) + 80) / 160 : ℤ) : ℚ)) * 4 +
        ((((2 * cal + 30) / 60 : ℤ) : ℚ)) * 9 - (cal : ℚ) =
        (((2 * (7 * cal) + 80) / 160 * 4 + (2 * (7 * cal) + 80) / 160 * 4 +
          (2 * cal + 30) / 60 * 9 - cal : ℤ) : ℚ) := by
      push_cast
      ring
    rw [hcast, ← Int.cast_abs]
    have hint : |(2 * (7 * cal) + 80) / 160 * 4 + (2 * (7 * cal) + 80) / 160 * 4 +
        (2 * cal + 30) / 60 * 9 - cal| ≤ (8 : ℤ) := by
      rw [abs_le]
      constructor <;> omega
    exact_mod_cast hint
  | gain =>
    have h1 : mathRound ((cal : ℚ) * 0.25 / 4) = (2 * cal + 16) / 32 := by
      rw [show (cal : ℚ) * 0.25 / 4 = ((cal : ℤ) : ℚ) / ((16 : ℕ) : ℚ) by
        rw [show (0.25 : ℚ) = 1/4 by norm_num]; push_cast; ring]
      rw [mathRound_intCast_div _ _ (by norm_num)]
      norm_num
    have h2 : mathRound ((cal : ℚ) * 0.50 / 4) = (2 * cal + 8) / 16 := by
      rw [show (cal : ℚ) * 0.50 / 4 = ((cal : ℤ) : ℚ) / ((8 : ℕ) : ℚ) by
        rw [show (0.50 : ℚ) = 1/2 by norm_num]; push_cast; ring]
      rw [mathRound_intCast_div _ _ (by norm_num)]
      norm_num
    have h3 : mathRound ((cal : ℚ) * 0.25 / 9) = (2 * cal + 36) / 72 := by
      rw [show (cal : ℚ) * 0.25 / 9 = ((cal : ℤ) : ℚ) / ((36 : ℕ) : ℚ) by
        rw [show (0.25 : ℚ) = 1/4 by norm_num]; push_cast; ring]
      rw [mathRound_intCast_div _ _ (by norm_num)]
      norm_num
    simp only [calculateMacros]
    rw [h1, h2, h3]
    have hcast : ((((2 * cal + 16) / 32 : ℤ) : ℚ)) * 4 +
        ((((2 * cal + 8) / 16 : ℤ) : ℚ)) * 4 +
        ((((2 * cal + 36) / 72 : ℤ) : ℚ)) * 9 - (cal : ℚ) =
        (((2 * cal + 16) / 32 * 4 + (2 * cal + 8) / 16 * 4 +
          (2 * cal + 36) / 72 * 9 - cal : ℤ) : ℚ) := by
      push_cast
      ring
    rw [hcast, ← Int.cast_abs]
    have hint : |(2 * cal + 16) / 32 * 4 + (2 * cal + 8) / 16 * 4 +
        (2 * cal + 36) / 72 * 9 - cal| ≤ (8 : ℤ) := by
      rw [abs_le]
      constructor <;> omega
    exact_mod_cast hint
  | maintain =>
    have h1 : mathRound ((cal : ℚ) * 0.30 / 4) = (2 * (3 * cal) + 40) / 80 := by
      rw [show (cal : ℚ) * 0.30 / 4 = ((3 * cal : ℤ) : ℚ) / ((40 : ℕ) : ℚ) by
        rw [show (0.30 : ℚ) = 3/10 by norm_num]; push_cast; ring]
      rw [mathRound_intCast_div _ _ (by norm_num)]
      norm_num
    have h2 : mathRound ((cal : ℚ) * 0.40 / 4) = (2 * cal + 10) / 20 := by
      rw [show (cal : ℚ) * 0.40 / 4 = ((cal : ℤ) : ℚ) / ((10 : ℕ) : ℚ) by
        rw [show (0.40 : ℚ) = 2/5 by norm_num]; push_cast; ring]
      rw [mathRound_intCast_div _ _ (by norm_num)]
      norm_num
    have h3 : mathRound ((cal : ℚ) * 0.30 / 9) = (2 * cal + 30) / 60 := by
      rw [show (cal : ℚ) * 0.30 / 9 = ((cal : ℤ) : ℚ) / ((30 : ℕ) : ℚ) by
        rw [show (0.30 : ℚ) = 3/10 by norm_num]; push_cast; ring]
      rw [mathRound_intCast_div _ _ (by norm_num)]
      norm_num
    simp only [calculateMacros]
    rw [h1, h2, h3]
    have hcast : ((((2 * (3 * cal) + 40) / 80 : ℤ) : ℚ)) * 4 +
        ((((2 * cal + 10) / 20 : ℤ) : ℚ)) * 4 +
        ((((2 * cal + 30) / 60 : ℤ) : ℚ)) * 9 - (cal : ℚ) =
        (((2 * (3 * cal) + 40) / 80 * 4 + (2 * cal + 10) / 20 * 4 +
          (2 * cal + 30) / 60 * 9 - cal : ℤ) : ℚ) := by
      push_cast
      ring
    rw [hcast, ← Int.cast_abs]
    have hint : |(2 * (3 * cal) + 40) / 80 * 4 + (2 * cal + 10) / 20 * 4 +
        (2 * cal + 30) / 60 * 9 - cal| ≤ (8 : ℤ) := by
      rw [abs_le]
      constructor <;> omega
    exact_mod_cast hint

/-- C3 counterexample: with a later sample lacking weight and an earlier
sample weighing 70, the code reports no recent weight, while the spec's
rule (latest sample with a non-null weight) yields 70. -/
theorem recentWeight_skips_earlier_weighted_sample :
    recentWeight [⟨2, none⟩, ⟨1, some 70⟩] = none ∧
    specMostRecentWeight [⟨2, none⟩, ⟨1, some 70⟩] = some 70 := ⟨rfl, rfl⟩

/-- C3 amended: recentWeight is the weight field of the sample with the
latest date overall, so it is absent when the collection is empty or when
that latest sample has no weight, even if an earlier sample has one. -/
theorem recentWeight_is_latest_sample_weight (metrics : List MetricSample)
    (hne : metrics ≠ []) :
    ∃ m ∈ metrics, recentWeight metrics = m.weight ∧
      ∀ s ∈ metrics, s.date ≤ m.date := by
  have hperm : List.Perm (List.insertionSort (fun a b : MetricSample => b.date ≤ a.date)
      metrics) metrics := List.perm_insertionSort _ _
  have hsorted : List.Sorted (fun a b : MetricSample => b.date ≤ a.date)
      (List.insertionSort (fun a b : MetricSample => b.date ≤ a.date) metrics) :=
    List.sorted_insertionSort _ _
  cases hLc : List.insertionSort (fun a b : MetricSample => b.date ≤ a.date) metrics with
  | nil =>
    exact absurd (((hLc ▸ hperm).symm).eq_nil) hne
  | cons m t =>
    rw [hLc] at hperm hsorted
    refine ⟨m, hperm.mem_iff.mp (List.mem_cons_self m t), ?_, ?_⟩
    · unfold recentWeight getLatestProgressMetrics
      rw [hLc]
      rfl
    · intro s hs
      rcases List.mem_cons.mp (hperm.mem_iff.mpr hs) with h | h
      · rw [h]
      · exact List.rel_of_sorted_cons hsorted s h

/-- Witness for recentWeight_is_latest_sample_weight on a one-sample list. -/
theorem recentWeight_is_latest_sample_weight_witness :
    ∃ m ∈ ([⟨0, some 70⟩] : List MetricSample),
      recentWeight [⟨0, some 70⟩] = m.weight ∧
      ∀ s ∈ ([⟨0, some 70⟩] : List MetricSample), s.date ≤ m.date :=
  recentWeight_is_latest_sample_weight [⟨0, some 70⟩] (by simp)

/-- Day truncation is monotone in the timestamp. -/
theorem dayOf_mono {a b : ℤ} (h : a ≤ b) : dayOf a ≤ dayOf b :=
  Int.ediv_le_ediv (by norm_num [msPerDay]) h

/-- The streak loop on a day-descending list counts exactly the consecutive
run of days, ending at the cursor, that contain a session. -/
theorem streakWalk_spec : ∀ (l : List ℤ) (cursor : ℤ),
    List.Pairwise (fun a b => dayOf b ≤ dayOf a) l →
    (∀ i : ℕ, i < streakWalk l cursor → ∃ s ∈ l, dayOf s = cursor - i) ∧
    (∀ s ∈ l, dayOf s ≠ cursor - streakWalk l cursor) := by
  intro l
  induction l with
  | nil =>
    intro cursor _
    exact ⟨fun i hi => absurd hi (by simp [streakWalk]), fun s hs => absurd hs (by simp)⟩
  | cons s rest ih =>
    intro cursor hp
    obtain ⟨hhead, htail⟩ := List.pairwise_cons.mp hp
    by_cases heq : dayOf s = cursor
    · have hwalk : streakWalk (s :: rest) cursor = streakWalk rest (cursor - 1) + 1 := by
        simp [streakWalk, heq]
      obtain ⟨ih1, ih2⟩ := ih (cursor - 1) htail
      rw [hwalk]
      constructor
      · intro i hi
        cases i with
        | zero => exact ⟨s, List.mem_cons_self s rest, by simpa using heq⟩
        | succ j =>
          obtain ⟨t, ht, hd⟩ := ih1 j (by omega)
          refine ⟨t, List.mem_cons_of_mem s ht, ?_⟩
          rw [hd]
          push_cast
          ring
      · intro t ht
        rcases List.mem_cons.mp ht with h | h
        · rw [h, heq]
          have : (0 : ℤ) < (streakWalk rest (cursor - 1) + 1 : ℕ) := by positivity
          omega
        · have := ih2 t h
          push_cast at this ⊢
          omega
    · by_cases hlt : dayOf s < cursor
      · have hwalk : streakWalk (s :: rest) cursor = 0 := by
          simp [streakWalk, heq, hlt]
        rw [hwalk]
        constructor
        · intro i hi
          omega
        · intro t ht
          rcases List.mem_cons.mp ht with h | h
          · rw [h]
            push_cast
            omega
          · have hts : dayOf t ≤ dayOf s := hhead t h
            push_cast
            omega
      · have hgt : cursor < dayOf s := by omega
        have hwalk : streakWalk (s :: rest) cursor = streakWalk rest cursor := by
          simp [streakWalk, heq, hlt]
        obtain ⟨ih1, ih2⟩ := ih cursor htail
        rw [hwalk]
        constructor
        · intro i hi
          obtain ⟨t, ht, hd⟩ := ih1 i hi
          exact ⟨t, List.mem_cons_of_mem s ht, hd⟩
        · intro t ht
          rcases List.mem_cons.mp ht with h | h
          · rw [h]
            have : (0 : ℤ) ≤ (streakWalk rest cursor : ℕ) := by positivity
            omega
          · exact ih2 t h

/-- C6: the streak equals the number of consecutive calendar days ending at
the reference day that each contain at least one session: every day within
the streak has a session, and the day just past the streak has none, so
same-day duplicates count once, later days are skipped, the walk stops at
the first gap, and the streak is 0 with no session on the reference day. -/
theorem workoutStreak_consecutive_days (sessions : List ℤ) (asOf : ℤ) :
    (∀ i : ℕ, i < workoutStreak sessions asOf →
      ∃ s ∈ sessions, dayOf s = dayOf asOf - i) ∧
    ¬ ∃ s ∈ sessions, dayOf s = dayOf asOf - workoutStreak sessions asOf := by
  have hperm : List.Perm (sortByDateDesc sessions) sessions :=
    List.perm_insertionSort _ _
  have hsorted : List.Sorted (fun a b : ℤ => b ≤ a) (sortByDateDesc sessions) :=
    List.sorted_insertionSort _ _
  have hday : List.Pairwise (fun a b => dayOf b ≤ dayOf a) (sortByDateDesc sessions) :=
    hsorted.imp (fun hab => dayOf_mono hab)
  obtain ⟨h1, h2⟩ := streakWalk_spec (sortByDateDesc sessions) (dayOf asOf) hday
  constructor
  · intro i hi
    obtain ⟨s, hs, hd⟩ := h1 i hi
    exact ⟨s, hperm.mem_iff.mp hs, hd⟩
  · rintro ⟨s, hs, hd⟩
    exact h2 s (hperm.mem_iff.mpr hs) hd
